import Mathlib

/-!
Shallow embedding of `courses/machine_learning/deepdive/08_image/mnistmodel/trainer/task.py`
(a Python 2 training driver script) and proofs about its configuration logic.

Modelling conventions:
* Python ints are `Int`; Python 2 integer division (`//`, and `/` on two ints) is `Int.fdiv`
  (floor division).
* Python floats are modelled as exact rationals `ℚ` (the script only stores and forwards
  the parsed literals; no float arithmetic is performed by the script itself).
* Python dicts that the script builds and reads (the argparse namespace `args.__dict__`,
  a parsed JSON object) are association lists with unique keys.
* Exceptions (argparse errors, `AttributeError`, `KeyError`, `TypeError`,
  `ZeroDivisionError`) are `Except` error values.
* TensorFlow graph nodes are an inductive expression type `Tensor`: the script only wires
  framework calls together, so each framework call is a constructor.
-/

/-- A value held in the argparse namespace / hyperparameter dict. `vnone` is Python `None`
(the argparse default for a `required` argument that has no `default=`). -/
inductive ArgValue where
  | vint (i : Int)
  | vfloat (q : ℚ)
  | vstr (s : String)
  | vbool (b : Bool)
  | vnone
deriving DecidableEq, Repr

/-- The `type=`/`action=` of one `parser.add_argument` call in `task.py`:
`type=int`, `type=float`, plain string, or `action='store_true'`. -/
inductive ArgType where
  | int
  | float
  | str
  | storeTrue
deriving DecidableEq, Repr

/-- One `parser.add_argument(...)` call: the flag as written on the command line, the
destination attribute name (argparse replaces `-` with `_` after the leading `--`),
whether `required=True` was passed, the default value, and the value type. -/
structure ArgSpec where
  flag : String
  dest : String
  required : Bool
  dflt : ArgValue
  ty : ArgType
deriving DecidableEq, Repr

/-- An argparse failure. Python argparse prints usage and exits the process with code 2
in every one of these cases. -/
inductive ParseError where
  | unknownArgument (tok : String)
  | missingValue (flag : String)
  | badValue (flag : String) (tok : String)
  | missingRequired (flag : String)
deriving DecidableEq, Repr

/-- Python argparse exits with status 2 on any parse error (`ArgumentParser.error`). -/
def ParseError.exitCode (_ : ParseError) : Nat := 2

/-- The numeric value of a nonempty all-digit character sequence, else `none`. -/
def digitsToNat? (l : List Char) : Option Nat :=
  if l ≠ [] ∧ l.all (fun c => c.isDigit) then
    some (l.foldl (fun n c => n * 10 + (c.toNat - 48)) 0)
  else none

/-- Python `int(tok)` on the decimal integer literals argparse `type=int` receives:
an optional leading minus sign followed by digits. -/
def pyToInt? (s : String) : Option Int :=
  match s.data with
  | '-' :: rest => (digitsToNat? rest).map (fun n => -(n : Int))
  | l => (digitsToNat? l).map (fun n => (n : Int))

/-- Decimal float literal over characters: digits, optionally a point and more digits. -/
def parseFloatChars (l : List Char) : Option ℚ :=
  match l.span (fun c => c != '.') with
  | (intPart, []) => (digitsToNat? intPart).map (fun n => (n : ℚ))
  | (intPart, _dot :: frac) =>
    match digitsToNat? intPart, digitsToNat? frac with
    | some n, some f => some ((n : ℚ) + (f : ℚ) / ((10 : ℚ) ^ frac.length))
    | _, _ => none

/-- Python `float(tok)` restricted to the plain decimal literals relevant here:
an optional sign, digits, optionally a point and fraction digits
(scientific notation is not modelled; no claim exercises it). -/
def parseFloatTok (s : String) : Option ℚ :=
  match s.data with
  | '-' :: rest => (parseFloatChars rest).map (fun q => -q)
  | l => parseFloatChars l

/-- Convert a raw command-line token according to the argument's declared type
(Python `int(tok)` / `float(tok)` / identity). `storeTrue` flags consume no token. -/
def convertTok (ty : ArgType) (tok : String) : Option ArgValue :=
  match ty with
  | .int => (pyToInt? tok).map ArgValue.vint
  | .float => (parseFloatTok tok).map ArgValue.vfloat
  | .str => some (.vstr tok)
  | .storeTrue => none

/-- The twelve `parser.add_argument` calls of `task.py`'s `__main__`, in source order.
`--output_dir` is the only `required=True` argument; `--job-dir` has dest `job_dir`;
`--batch_norm` is `action='store_true'` with `parser.set_defaults(batch_norm=False)`. -/
def taskSpecs : List ArgSpec :=
  [ ⟨"--train_batch_size", "train_batch_size", false, .vint 100, .int⟩,
    ⟨"--learning_rate", "learning_rate", false, .vfloat 0.01, .float⟩,
    ⟨"--train_steps", "train_steps", false, .vint 0, .int⟩,
    ⟨"--output_dir", "output_dir", true, .vnone, .str⟩,
    ⟨"--model", "model", false, .vstr "linear", .str⟩,
    ⟨"--job-dir", "job_dir", false, .vstr "junk", .str⟩,
    ⟨"--ksize1", "ksize1", false, .vint 5, .int⟩,
    ⟨"--ksize2", "ksize2", false, .vint 5, .int⟩,
    ⟨"--nfil1", "nfil1", false, .vint 10, .int⟩,
    ⟨"--nfil2", "nfil2", false, .vint 20, .int⟩,
    ⟨"--dprob", "dprob", false, .vfloat 0.25, .float⟩,
    ⟨"--batch_norm", "batch_norm", false, .vbool false, .storeTrue⟩ ]

/-- The value the last occurrence of `key` carries in the scanned assignment list
(argparse semantics: a repeated flag's later occurrence overwrites the earlier one). -/
def lastAssign : List (String × ArgValue) → String → Option ArgValue
  | [], _ => none
  | (k, v) :: rest, key =>
    match lastAssign rest key with
    | some v2 => some v2
    | none => if k = key then some v else none

/-- Scan the command line left to right, pairing each recognised flag with its converted
value (in occurrence order). A flag not declared by any `add_argument`, a flag at the end
of the line with its value missing, and a value `int`/`float` cannot convert are the
argparse error cases. -/
def scanArgs (specs : List ArgSpec) : List String → Except ParseError (List (String × ArgValue))
  | [] => .ok []
  | tok :: rest =>
    match specs.find? (fun s => s.flag = tok) with
    | none => .error (.unknownArgument tok)
    | some s =>
      if s.ty = .storeTrue then
        (scanArgs specs rest).map (fun m => (s.dest, ArgValue.vbool true) :: m)
      else
        match rest with
        | [] => .error (.missingValue s.flag)
        | v :: rest2 =>
          match convertTok s.ty v with
          | none => .error (.badValue s.flag v)
          | some a => (scanArgs specs rest2).map (fun m => (s.dest, a) :: m)

/-- Build the argparse namespace (`args.__dict__`): one entry per declared argument, in
declaration order, holding the last supplied value or else the default; a `required=True`
argument that was never supplied is an error. -/
def buildNS : List ArgSpec → List (String × ArgValue) → Except ParseError (List (String × ArgValue))
  | [], _ => .ok []
  | s :: ss, asgn =>
    match lastAssign asgn s.dest with
    | some v =>
      match buildNS ss asgn with
      | .ok r => .ok ((s.dest, v) :: r)
      | .error e => .error e
    | none =>
      match s.required with
      | true => .error (.missingRequired s.flag)
      | false =>
        match buildNS ss asgn with
        | .ok r => .ok ((s.dest, s.dflt) :: r)
        | .error e => .error e

/-- `args = parser.parse_args()` followed by `hparams = args.__dict__` for the parser
built in `task.py`'s `__main__`. -/
def parseArgs (argv : List String) : Except ParseError (List (String × ArgValue)) :=
  match scanArgs taskSpecs argv with
  | .ok asgn => buildNS taskSpecs asgn
  | .error e => .error e

/-- A parsed JSON value, as produced by Python `json.loads`. -/
inductive Json where
  | jnull
  | jbool (b : Bool)
  | jnum (n : ℚ)
  | jstr (s : String)
  | jarr (elems : List Json)
  | jobj (fields : List (String × Json))

/-- Python `d.get(key, dflt)` on a JSON object's field list. -/
def jsonGet (fields : List (String × Json)) (key : String) (dflt : Json) : Json :=
  match fields.lookup key with
  | some v => v
  | none => dflt

/-- `json.loads(os.environ.get('TF_CONFIG', ...)).get('task', ...).get('trial', '')`:
the environment is modelled as `none` when `TF_CONFIG` is unset (then `os.environ.get`
supplies the empty-object JSON text) and `some fields` when it is set to a JSON object.
The result is `none` exactly when the `task` value is not a JSON object, where Python's
`.get` call on it raises `AttributeError`. -/
def extractTrial (tfConfig : Option (List (String × Json))) : Option Json :=
  let cfg := tfConfig.getD []
  match jsonGet cfg "task" (.jobj []) with
  | .jobj taskFields => some (jsonGet taskFields "trial" (.jstr ""))
  | _ => none

/-- Python `s.startswith(pre)`. -/
def pyStartsWith (s pre : String) : Bool :=
  pre.data.isPrefixOf s.data

/-- Python `s.endswith(suf)`. -/
def pyEndsWith (s suf : String) : Bool :=
  suf.data.isSuffixOf s.data

/-- POSIX `os.path.join(path, b)` for exactly two components: an absolute second
component replaces the first; otherwise a separator is inserted unless the first
component is empty or already ends with one. -/
def osPathJoin (path b : String) : String :=
  if pyStartsWith b "/" then b
  else if path = "" ∨ pyEndsWith path "/" then path ++ b
  else path ++ "/" ++ b

/-- The `output_dir = os.path.join(output_dir, ...)` computation of `__main__`:
join the popped `--output_dir` value with the extracted trial id. `none` models the
uncaught Python exception when the trial id is not a string (`os.path.join` raises
`TypeError`) or the `task` value is not an object. -/
def computeOutputDir (output_dir : String) (tfConfig : Option (List (String × Json))) :
    Option String :=
  match extractTrial tfConfig with
  | some (.jstr t) => some (osPathJoin output_dir t)
  | _ => none

/-- An uncaught Python runtime exception of `task.py`'s `__main__` glue code. -/
inductive PyError where
  | keyError (k : String)
  | attributeError (name : String)
  | typeError
  | zeroDivisionError
deriving DecidableEq, Repr

/-- The `if hparams['train_steps'] < 1:` block of `__main__`: when the supplied step
count is below 1, replace it by `(10000 * 512) // hparams['train_batch_size']`
(Python 2 floor division; division by zero raises `ZeroDivisionError`). -/
def applyStepsGuard (hp : List (String × ArgValue)) :
    Except PyError (List (String × ArgValue)) :=
  match hp.lookup "train_steps" with
  | none => .error (.keyError "train_steps")
  | some (.vint ts) =>
    if ts < 1 then
      match hp.lookup "train_batch_size" with
      | none => .error (.keyError "train_batch_size")
      | some (.vint b) =>
        if b = 0 then .error .zeroDivisionError
        else
          .ok (hp.map (fun p =>
            if p.1 = "train_steps" then (p.1, ArgValue.vint (Int.fdiv (10000 * 512) b))
            else p))
      | some _ => .error .typeError
    else .ok hp
  | some _ => .error .typeError

/-- A failure of `__main__` before the training run starts: either argparse exits
(usage message, exit status 2), or the glue code raises an uncaught exception. -/
inductive MainError where
  | parseErr (e : ParseError)
  | runtimeErr (e : PyError)
deriving DecidableEq, Repr

/-- `task.py`'s `__main__` up to the `learn_runner.run` call: parse the command line,
pop the service-supplied keys `job_dir` and `job-dir` from the hyperparameter dict, pop
`output_dir` and join it with the `TF_CONFIG` trial id, and apply the train-steps guard.
Returns the computed output directory and the hyperparameter dict handed to
`make_experiment_fn`. -/
def mainPipeline (argv : List String) (tfConfig : Option (List (String × Json))) :
    Except MainError (String × List (String × ArgValue)) :=
  match parseArgs argv with
  | .error e => .error (.parseErr e)
  | .ok args =>
    let hp := (args.filter (fun p => p.1 != "job_dir")).filter (fun p => p.1 != "job-dir")
    match hp.lookup "output_dir" with
    | none => .error (.runtimeErr (.keyError "output_dir"))
    | some od =>
      let hp := hp.filter (fun p => p.1 != "output_dir")
      match od with
      | .vstr ods =>
        match computeOutputDir ods tfConfig with
        | none => .error (.runtimeErr .typeError)
        | some outDir =>
          match applyStepsGuard hp with
          | .ok hp2 => .ok (outDir, hp2)
          | .error e => .error (.runtimeErr e)
      | _ => .error (.runtimeErr .typeError)

/-- `tf.estimator.ModeKeys.TRAIN` (the string constant `'train'`). -/
def ModeKeys.TRAIN : String := "train"

/-- `tf.estimator.ModeKeys.EVAL` (the string constant `'eval'`). -/
def ModeKeys.EVAL : String := "eval"

/-- `tf.estimator.ModeKeys.PREDICT` (the string constant `'infer'`). -/
def ModeKeys.PREDICT : String := "infer"

/-- A tensor dtype named by the script (`tf.uint8` in the `tf.cast` call). -/
inductive DType where
  | uint8
deriving DecidableEq, Repr

/-- A TensorFlow graph node as built by `image_classifier`: one constructor per framework
call the script makes. `withDeps coll t` is `with tf.control_dependencies(update_ops)`
around building `t`, with `update_ops = tf.get_collection(coll)`; `accuracy p l` is
`tf.metrics.accuracy(p, l)` with the script's argument order; `optimizeLoss` is
`tf.contrib.layers.optimize_loss` at the given learning rate with the `"Adam"` optimizer. -/
inductive Tensor where
  | opaqueT (name : String)
  | softmax (t : Tensor)
  | argmax (t : Tensor) (axis : Nat)
  | cast (t : Tensor) (dtype : DType)
  | oneHot (labels : Tensor) (depth : Nat)
  | softmaxCrossEntropyWithLogits (logits : Tensor) (labels : Tensor)
  | reduceMean (t : Tensor)
  | optimizeLoss (loss : Tensor) (learning_rate : ArgValue) (optimizer : String)
  | withDeps (collection : String) (t : Tensor)
  | accuracy (predictions : Tensor) (labels : Tensor)

/-- A `<name>_model` function of the external `model` module: from the image tensor, the
mode and the params dict to `(ylogits, nclasses)`. -/
def ModelFn : Type :=
  Tensor → String → List (String × ArgValue) → Tensor × Nat

/-- `tf.estimator.export.PredictOutput(...)`: a named-tensor bundle. -/
structure PredictOutput where
  outputs : List (String × Tensor)

/-- The `tf.estimator.EstimatorSpec` record returned by `image_classifier`. -/
structure EstimatorSpec where
  mode : String
  predictions : List (String × Tensor)
  loss : Option Tensor
  train_op : Option Tensor
  eval_metric_ops : Option (List (String × Tensor))
  export_outputs : List (String × PredictOutput)

/-- Python `'...'.format(v)` / `str(v)` on an argparse value (only the `vstr` case is ever
reached with the parser of this script, whose `--model` argument is a plain string). -/
def pyStr (v : ArgValue) : String :=
  match v with
  | .vstr s => s
  | .vint i => toString i
  | .vfloat q => toString q
  | .vbool b => if b then "True" else "False"
  | .vnone => "None"

/-- `image_classifier(features, labels, mode, params)` of `task.py`. The external `model`
module is an association list of attribute names to model functions; `getattr` on a name
it lacks raises `AttributeError`. `features` is the input dict, read at key `'image'`.
Loss, metrics and train op are built exactly in the source's branch structure. -/
def image_classifier (module : List (String × ModelFn))
    (features : List (String × Tensor)) (labels : Tensor) (mode : String)
    (params : List (String × ArgValue)) : Except PyError EstimatorSpec :=
  match params.lookup "model" with
  | none => .error (.keyError "model")
  | some mv =>
    let name := pyStr mv ++ "_model"
    match module.lookup name with
    | none => .error (.attributeError name)
    | some model_func =>
      match features.lookup "image" with
      | none => .error (.keyError "image")
      | some img =>
        let res := model_func img mode params
        let ylogits := res.1
        let nclasses := res.2
        let probabilities := Tensor.softmax ylogits
        let classes := Tensor.cast (Tensor.argmax probabilities 1) DType.uint8
        if mode = ModeKeys.TRAIN ∨ mode = ModeKeys.EVAL then
          let loss := Tensor.reduceMean
            (Tensor.softmaxCrossEntropyWithLogits ylogits (Tensor.oneHot labels nclasses))
          let evalmetrics := [("accuracy", Tensor.accuracy classes labels)]
          if mode = ModeKeys.TRAIN then
            match params.lookup "learning_rate" with
            | none => .error (.keyError "learning_rate")
            | some lr =>
              let train_op := Tensor.withDeps "update_ops"
                (Tensor.optimizeLoss loss lr "Adam")
              .ok (EstimatorSpec.mk mode
                [("probabilities", probabilities), ("classes", classes)]
                (some loss) (some train_op) (some evalmetrics)
                [("classes", PredictOutput.mk
                  [("probabilities", probabilities), ("classes", classes)])])
          else
            .ok (EstimatorSpec.mk mode
              [("probabilities", probabilities), ("classes", classes)]
              (some loss) none (some evalmetrics)
              [("classes", PredictOutput.mk
                [("probabilities", probabilities), ("classes", classes)])])
        else
          .ok (EstimatorSpec.mk mode
            [("probabilities", probabilities), ("classes", classes)]
            none none none
            [("classes", PredictOutput.mk
              [("probabilities", probabilities), ("classes", classes)])])

/-- `save_freq = max(1, min(100, hparams['train_steps']/100))` from
`create_custom_estimator` (Python 2 floor division on ints). -/
def save_freq (train_steps : Int) : Int :=
  max 1 (min 100 (Int.fdiv train_steps 100))

/-- `eval_freq = max(1, min(2000, hparams['train_steps']/5))` from the `experiment_fn`
built by `make_experiment_fn` (Python 2 floor division on ints). -/
def eval_freq (train_steps : Int) : Int :=
  max 1 (min 2000 (Int.fdiv train_steps 5))

theorem lastAssign_eq_none (asgn : List (String × ArgValue)) (d : String)
    (h : ∀ p ∈ asgn, p.1 ≠ d) : lastAssign asgn d = none := by
  induction asgn with
  | nil => rfl
  | cons q rest ih =>
    obtain ⟨k, v⟩ := q
    have hk : k ≠ d := h (k, v) (List.mem_cons_self _ _)
    have hrest : lastAssign rest d = none := ih (fun p hp => h p (List.mem_cons_of_mem _ hp))
    simp [lastAssign, hrest, hk]

theorem scan_mem {specs : List ArgSpec} :
    ∀ (argv : List String) (asgn : List (String × ArgValue)),
      scanArgs specs argv = .ok asgn →
      ∀ p ∈ asgn, ∃ s, s ∈ specs ∧ s.dest = p.1 ∧ s.flag ∈ argv
  | [], asgn, hok => by
    intro p hp
    simp only [scanArgs] at hok
    cases hok
    simp at hp
  | tok :: rest, asgn, hok => by
    intro p hp
    simp only [scanArgs] at hok
    split at hok
    · cases hok
    · rename_i s hfind
      have hsmem : s ∈ specs := List.mem_of_find?_eq_some hfind
      have hsflag : s.flag = tok := by simpa using List.find?_some hfind
      by_cases hty : s.ty = ArgType.storeTrue
      · rw [if_pos hty] at hok
        cases hrec : scanArgs specs rest with
        | error e => rw [hrec] at hok; cases hok
        | ok m =>
          rw [hrec] at hok
          simp only [Except.map] at hok
          cases hok
          rcases List.mem_cons.mp hp with hhd | htl
          · exact ⟨s, hsmem, by rw [hhd], by rw [hsflag]; exact List.mem_cons_self _ _⟩
          · obtain ⟨s2, hs2, hdest, hflag⟩ := scan_mem rest m hrec p htl
            exact ⟨s2, hs2, hdest, List.mem_cons_of_mem _ hflag⟩
      · rw [if_neg hty] at hok
        cases rest with
        | nil => cases hok
        | cons v rest2 =>
          dsimp only [] at hok
          cases hcv : convertTok s.ty v with
          | none => rw [hcv] at hok; cases hok
          | some a =>
            rw [hcv] at hok
            cases hrec : scanArgs specs rest2 with
            | error e => rw [hrec] at hok; cases hok
            | ok m =>
              rw [hrec] at hok
              simp only [Except.map] at hok
              cases hok
              rcases List.mem_cons.mp hp with hhd | htl
              · exact ⟨s, hsmem, by rw [hhd], by rw [hsflag]; exact List.mem_cons_self _ _⟩
              · obtain ⟨s2, hs2, hdest, hflag⟩ := scan_mem rest2 m hrec p htl
                exact ⟨s2, hs2, hdest,
                  List.mem_cons_of_mem _ (List.mem_cons_of_mem _ hflag)⟩

theorem scan_no_assign {specs : List ArgSpec} (tok d : String)
    (hinj : ∀ s ∈ specs, s.dest = d → s.flag = tok)
    (argv : List String) (asgn : List (String × ArgValue))
    (hok : scanArgs specs argv = .ok asgn) (hmem : tok ∉ argv) :
    lastAssign asgn d = none := by
  apply lastAssign_eq_none
  intro p hp hpd
  obtain ⟨s, hs, hdest, hflag⟩ := scan_mem argv asgn hok p hp
  exact hmem (by rw [← hinj s hs (hdest.trans hpd)]; exact hflag)

theorem buildNS_default (d : String) :
    ∀ (ss : List ArgSpec) (asgn : List (String × ArgValue)) (r : List (String × ArgValue))
      (s : ArgSpec), buildNS ss asgn = .ok r → lastAssign asgn d = none →
      ss.find? (fun x => x.dest = d) = some s → r.lookup d = some s.dflt := by
  intro ss
  induction ss with
  | nil => intro asgn r s hok hnone hfind; simp at hfind
  | cons s0 ss ih =>
    intro asgn r s hok hnone hfind
    simp only [buildNS] at hok
    simp only [List.find?] at hfind
    by_cases hd : s0.dest = d
    · rw [show (decide (s0.dest = d)) = true from by simp [hd]] at hfind
      have hs0 : s0 = s := by injection hfind
      rw [hd, hnone] at hok
      cases hr : s0.required with
      | true => rw [hr] at hok; cases hok
      | false =>
        rw [hr] at hok
        cases hrec : buildNS ss asgn with
        | error e => rw [hrec] at hok; cases hok
        | ok r2 =>
          rw [hrec] at hok
          cases hok
          rw [← hs0]
          simp [List.lookup]
    · rw [show (decide (s0.dest = d)) = false from by simp [hd]] at hfind
      have hbeq : (d == s0.dest) = false :=
        beq_eq_false_iff_ne.mpr (fun h => hd h.symm)
      cases h0 : lastAssign asgn s0.dest with
      | some v =>
        rw [h0] at hok
        cases hrec : buildNS ss asgn with
        | error e => rw [hrec] at hok; cases hok
        | ok r2 =>
          rw [hrec] at hok
          cases hok
          simp only [List.lookup, hbeq]
          exact ih asgn r2 s hrec hnone hfind
      | none =>
        rw [h0] at hok
        cases hr : s0.required with
        | true => rw [hr] at hok; cases hok
        | false =>
          rw [hr] at hok
          cases hrec : buildNS ss asgn with
          | error e => rw [hrec] at hok; cases hok
          | ok r2 =>
            rw [hrec] at hok
            cases hok
            simp only [List.lookup, hbeq]
            exact ih asgn r2 s hrec hnone hfind

theorem buildNS_missing_required :
    ∀ (ss : List ArgSpec) (asgn : List (String × ArgValue)) (s : ArgSpec),
      s ∈ ss → s.required = true → lastAssign asgn s.dest = none →
      ∃ e, buildNS ss asgn = .error e := by
  intro ss
  induction ss with
  | nil => intro asgn s hs; simp at hs
  | cons s0 ss ih =>
    intro asgn s hs hreq hnone
    simp only [buildNS]
    rcases List.mem_cons.mp hs with hhd | htl
    · subst hhd
      rw [hnone, hreq]
      exact ⟨_, rfl⟩
    · obtain ⟨e, herr⟩ := ih asgn s htl hreq hnone
      rw [herr]
      cases h0 : lastAssign asgn s0.dest with
      | some v => exact ⟨e, rfl⟩
      | none =>
        cases hr : s0.required with
        | true => exact ⟨_, rfl⟩
        | false => exact ⟨e, rfl⟩

theorem parseArgs_ok_inv (argv : List String) (r : List (String × ArgValue))
    (hok : parseArgs argv = .ok r) :
    ∃ asgn, scanArgs taskSpecs argv = .ok asgn ∧ buildNS taskSpecs asgn = .ok r := by
  unfold parseArgs at hok
  cases hscan : scanArgs taskSpecs argv with
  | error e => rw [hscan] at hok; cases hok
  | ok asgn => rw [hscan] at hok; exact ⟨asgn, rfl, hok⟩

theorem lookup_set_value (k : String) (w : ArgValue) :
    ∀ (l : List (String × ArgValue)) (v : ArgValue), l.lookup k = some v →
      (l.map (fun p => if p.1 = k then (p.1, w) else p)).lookup k = some w := by
  intro l
  induction l with
  | nil => intro v hv; cases hv
  | cons q rest ih =>
    intro v hv
    obtain ⟨k0, v0⟩ := q
    by_cases hk : k0 = k
    · subst hk
      have hmap : List.map (fun p => if p.1 = k0 then (p.1, w) else p) ((k0, v0) :: rest)
          = (k0, w) :: List.map (fun p => if p.1 = k0 then (p.1, w) else p) rest := by
        simp
      rw [hmap]
      simp [List.lookup]
    · have hbeq : (k == k0) = false := beq_eq_false_iff_ne.mpr (fun h => hk h.symm)
      simp only [List.lookup, hbeq] at hv
      simp only [List.map, if_neg hk]
      simp only [List.lookup, hbeq]
      exact ih v hv

theorem applyStepsGuard_keys (hp hp2 : List (String × ArgValue))
    (hok : applyStepsGuard hp = .ok hp2) :
    ∀ p ∈ hp2, ∃ q ∈ hp, p.1 = q.1 := by
  intro p hp2mem
  unfold applyStepsGuard at hok
  cases hts : hp.lookup "train_steps" with
  | none => rw [hts] at hok; cases hok
  | some tsv =>
    rw [hts] at hok
    cases tsv with
    | vint ts =>
      dsimp only [] at hok
      by_cases hlt : ts < 1
      · rw [if_pos hlt] at hok
        cases hb : hp.lookup "train_batch_size" with
        | none => rw [hb] at hok; cases hok
        | some bv =>
          rw [hb] at hok
          cases bv with
          | vint b =>
            dsimp only [] at hok
            by_cases hb0 : b = 0
            · rw [if_pos hb0] at hok; cases hok
            · rw [if_neg hb0] at hok
              cases hok
              obtain ⟨q, hq, hfq⟩ := List.mem_map.mp hp2mem
              refine ⟨q, hq, ?_⟩
              by_cases hqk : q.1 = "train_steps"
              · rw [← hfq, if_pos hqk]
              · rw [← hfq, if_neg hqk]
          | vfloat q => cases hok
          | vstr s => cases hok
          | vbool b => cases hok
          | vnone => cases hok
      · rw [if_neg hlt] at hok
        cases hok
        exact ⟨p, hp2mem, rfl⟩
    | vfloat q => cases hok
    | vstr s => cases hok
    | vbool b => cases hok
    | vnone => cases hok

/-- C9: for every integer `train_steps`, the derived checkpoint-save frequency
`max(1, min(100, train_steps/100))` lies in `[1, 100]` and the derived evaluation
frequency `max(1, min(2000, train_steps/5))` lies in `[1, 2000]`; both are at least 1
even for zero or negative `train_steps` (floor division). -/
theorem c9_derived_frequencies_bounded (ts : Int) :
    1 ≤ save_freq ts ∧ save_freq ts ≤ 100 ∧ 1 ≤ eval_freq ts ∧ eval_freq ts ≤ 2000 := by
  unfold save_freq eval_freq
  exact ⟨le_max_left 1 _, max_le (by norm_num) (min_le_left _ _),
    le_max_left 1 _, max_le (by norm_num) (min_le_left _ _)⟩

/-- C1: with `--train_steps` left at its parser default of 0, the guard in `__main__`
replaces the step count passed downstream by `(10000 * 512) // train_batch_size`
(floor division), for every positive `train_batch_size`; the parser's `--train_steps`
default is the integer 0. -/
theorem c1_default_train_steps_autocompute (hp : List (String × ArgValue)) (b : Int)
    (hts : hp.lookup "train_steps" = some (.vint 0))
    (hb : hp.lookup "train_batch_size" = some (.vint b)) (hbpos : 0 < b) :
    (taskSpecs.find? (fun s => s.dest = "train_steps") =
      some ⟨"--train_steps", "train_steps", false, .vint 0, .int⟩) ∧
    ∃ hp2, applyStepsGuard hp = .ok hp2 ∧
      hp2.lookup "train_steps" = some (.vint (Int.fdiv (10000 * 512) b)) := by
  refine ⟨by rfl, ?_⟩
  unfold applyStepsGuard
  rw [hts]
  dsimp only []
  rw [if_pos (by norm_num : (0:Int) < 1), hb]
  dsimp only []
  rw [if_neg (by omega : ¬ b = 0)]
  exact ⟨_, rfl, lookup_set_value "train_steps" _ hp _ hts⟩

/-- Witness for C1: a record with `train_steps = 0` and `train_batch_size = 512`
is rewritten to `train_steps = 10000`. -/
theorem c1_default_train_steps_autocompute_witness :
    ([("train_steps", ArgValue.vint 0), ("train_batch_size", ArgValue.vint 512)].lookup
      "train_steps" = some (ArgValue.vint 0)) ∧
    ([("train_steps", ArgValue.vint 0), ("train_batch_size", ArgValue.vint 512)].lookup
      "train_batch_size" = some (ArgValue.vint 512)) ∧
    (0 : Int) < 512 ∧
    ((taskSpecs.find? (fun s => s.dest = "train_steps") =
        some ⟨"--train_steps", "train_steps", false, .vint 0, .int⟩) ∧
      ∃ hp2, applyStepsGuard
          [("train_steps", ArgValue.vint 0), ("train_batch_size", ArgValue.vint 512)] =
          .ok hp2 ∧
        hp2.lookup "train_steps" = some (.vint 10000)) :=
  ⟨rfl, rfl, by decide,
    c1_default_train_steps_autocompute
      [("train_steps", ArgValue.vint 0), ("train_batch_size", ArgValue.vint 512)]
      512 rfl rfl (by decide)⟩

/-- C8: the auto-computation guard fires for every `train_steps` value strictly below 1
(zero or negative), and for `train_steps >= 1` the record is passed downstream
entirely unchanged. -/
theorem c8_steps_guard_threshold (hp : List (String × ArgValue)) (ts b : Int)
    (hts : hp.lookup "train_steps" = some (.vint ts))
    (hb : hp.lookup "train_batch_size" = some (.vint b)) (hbpos : 0 < b) :
    (ts < 1 → ∃ hp2, applyStepsGuard hp = .ok hp2 ∧
      hp2.lookup "train_steps" = some (.vint (Int.fdiv (10000 * 512) b))) ∧
    (1 ≤ ts → applyStepsGuard hp = .ok hp) := by
  constructor
  · intro hlt
    unfold applyStepsGuard
    rw [hts]
    dsimp only []
    rw [if_pos hlt, hb]
    dsimp only []
    rw [if_neg (by omega : ¬ b = 0)]
    exact ⟨_, rfl, lookup_set_value "train_steps" _ hp _ hts⟩
  · intro hge
    unfold applyStepsGuard
    rw [hts]
    dsimp only []
    rw [if_neg (by omega : ¬ ts < 1)]

/-- Witness for C8: the guard fires at the negative value -3 (yielding 10000 steps at
batch size 512) and leaves the record unchanged at the value 7. -/
theorem c8_steps_guard_threshold_witness :
    ((-3 : Int) < 1 ∧
      ∃ hp2, applyStepsGuard
          [("train_steps", ArgValue.vint (-3)), ("train_batch_size", ArgValue.vint 512)] =
          .ok hp2 ∧
        hp2.lookup "train_steps" = some (.vint 10000)) ∧
    ((1 : Int) ≤ 7 ∧
      applyStepsGuard
          [("train_steps", ArgValue.vint 7), ("train_batch_size", ArgValue.vint 512)] =
        .ok [("train_steps", ArgValue.vint 7), ("train_batch_size", ArgValue.vint 512)]) :=
  ⟨⟨by decide,
    (c8_steps_guard_threshold
      [("train_steps", ArgValue.vint (-3)), ("train_batch_size", ArgValue.vint 512)]
      (-3) 512 rfl rfl (by decide)).1 (by decide)⟩,
   ⟨by decide,
    (c8_steps_guard_threshold
      [("train_steps", ArgValue.vint 7), ("train_batch_size", ArgValue.vint 512)]
      7 512 rfl rfl (by decide)).2 (by decide)⟩⟩

/-- C2 counterexample: with `TF_CONFIG` absent the computed output directory is NOT the
`--output_dir` value unchanged: `os.path.join` with the empty trial id appends a
trailing separator, giving `outdir/` for input `outdir`. -/
theorem c2_unchanged_output_dir_refuted :
    computeOutputDir "outdir" none = some "outdir/" ∧
    computeOutputDir "outdir" none ≠ some "outdir" :=
  ⟨rfl, by decide⟩

/-- C2 (amended): the computed output directory equals `output_dir` path-joined with
the trial id when one is extracted; when `TF_CONFIG` is absent or yields no trial id
(empty trial string) it equals `output_dir` with a trailing `/` appended, unchanged
only when `output_dir` is empty or already ends with `/`. -/
theorem c2_output_dir_trial_join (od : String) (cfg : Option (List (String × Json)))
    (t : String) :
    (extractTrial cfg = some (.jstr t) → computeOutputDir od cfg = some (osPathJoin od t)) ∧
    (extractTrial cfg = some (.jstr "") →
      computeOutputDir od cfg =
        some (if od = "" ∨ pyEndsWith od "/" then od else od ++ "/")) := by
  constructor
  · intro h
    unfold computeOutputDir
    rw [h]
  · intro h
    unfold computeOutputDir
    rw [h]
    dsimp only []
    congr 1
    unfold osPathJoin
    rw [show pyStartsWith "" "/" = false from rfl]
    rw [if_neg (by decide : ¬ (false = true))]
    by_cases hc : od = "" ∨ pyEndsWith od "/" = true
    · rw [if_pos hc, if_pos hc, String.append_empty]
    · rw [if_neg hc, if_neg hc, String.append_empty]

/-- Witness for C2 (amended): a present trial id `1` is appended as a path component;
an absent `TF_CONFIG` yields the directory with a trailing separator. -/
theorem c2_output_dir_trial_join_witness :
    (extractTrial (some [("task", Json.jobj [("trial", Json.jstr "1")])]) =
        some (Json.jstr "1") ∧
      computeOutputDir "gs://bucket/out"
          (some [("task", Json.jobj [("trial", Json.jstr "1")])]) =
        some "gs://bucket/out/1") ∧
    (extractTrial (none : Option (List (String × Json))) = some (Json.jstr "") ∧
      computeOutputDir "gs://bucket/out" none = some "gs://bucket/out/") :=
  ⟨⟨rfl, (c2_output_dir_trial_join "gs://bucket/out"
      (some [("task", Json.jobj [("trial", Json.jstr "1")])]) "1").1 rfl⟩,
   ⟨rfl, (c2_output_dir_trial_join "gs://bucket/out" none "").2 rfl⟩⟩

/-- A stand-in entry for the external `model` module, for concrete evaluations:
`linear_model` returning opaque logits with 10 classes. -/
def demoModelFn : ModelFn := fun _ _ _ => (Tensor.opaqueT "logits", 10)

/-- A one-entry stand-in for the external `model` module. -/
def demoModule : List (String × ModelFn) := [("linear_model", demoModelFn)]

/-- C3: when `<model>_model` is not an attribute of the `model` module, `image_classifier`
fails with the uncaught `AttributeError` from `getattr`, with no fallback to any
default model. -/
theorem c3_unknown_model_uncaught (module : List (String × ModelFn))
    (features : List (String × Tensor)) (labels : Tensor) (mode : String)
    (params : List (String × ArgValue)) (m : String)
    (hm : params.lookup "model" = some (.vstr m))
    (hmiss : module.lookup (m ++ "_model") = none) :
    image_classifier module features labels mode params =
      .error (.attributeError (m ++ "_model")) := by
  unfold image_classifier
  rw [hm]
  dsimp only [pyStr]
  rw [hmiss]

/-- Witness for C3: `--model resnet` against a module defining only `linear_model`
yields `AttributeError` on `resnet_model`. -/
theorem c3_unknown_model_uncaught_witness :
    ([("model", ArgValue.vstr "resnet")].lookup "model" = some (ArgValue.vstr "resnet")) ∧
    (demoModule.lookup ("resnet" ++ "_model") = none) ∧
    image_classifier demoModule [("image", Tensor.opaqueT "img")]
        (Tensor.opaqueT "labels") ModeKeys.TRAIN [("model", ArgValue.vstr "resnet")] =
      .error (.attributeError "resnet_model") :=
  ⟨rfl, rfl,
    c3_unknown_model_uncaught demoModule [("image", Tensor.opaqueT "img")]
      (Tensor.opaqueT "labels") ModeKeys.TRAIN [("model", ArgValue.vstr "resnet")]
      "resnet" rfl rfl⟩

/-- C6: every flag that is omitted from the command line comes out of parsing with its
documented default: `train_batch_size = 100`, `learning_rate = 0.01`,
`model = "linear"`, `ksize1 = 5`, `ksize2 = 5`, `nfil1 = 10`, `nfil2 = 20`,
`dprob = 0.25`, `batch_norm = false`. -/
theorem c6_omitted_flags_defaults (argv : List String) (r : List (String × ArgValue))
    (hok : parseArgs argv = .ok r)
    (h1 : "--train_batch_size" ∉ argv) (h2 : "--learning_rate" ∉ argv)
    (h3 : "--model" ∉ argv) (h4 : "--ksize1" ∉ argv) (h5 : "--ksize2" ∉ argv)
    (h6 : "--nfil1" ∉ argv) (h7 : "--nfil2" ∉ argv) (h8 : "--dprob" ∉ argv)
    (h9 : "--batch_norm" ∉ argv) :
    r.lookup "train_batch_size" = some (.vint 100) ∧
    r.lookup "learning_rate" = some (.vfloat 0.01) ∧
    r.lookup "model" = some (.vstr "linear") ∧
    r.lookup "ksize1" = some (.vint 5) ∧
    r.lookup "ksize2" = some (.vint 5) ∧
    r.lookup "nfil1" = some (.vint 10) ∧
    r.lookup "nfil2" = some (.vint 20) ∧
    r.lookup "dprob" = some (.vfloat 0.25) ∧
    r.lookup "batch_norm" = some (.vbool false) := by
  obtain ⟨asgn, hscan, hbuild⟩ := parseArgs_ok_inv argv r hok
  refine ⟨?_, ?_, ?_, ?_, ?_, ?_, ?_, ?_, ?_⟩
  · exact buildNS_default "train_batch_size" taskSpecs asgn r _ hbuild
      (scan_no_assign "--train_batch_size" "train_batch_size" (by decide) argv asgn hscan h1)
      (by rfl)
  · exact buildNS_default "learning_rate" taskSpecs asgn r _ hbuild
      (scan_no_assign "--learning_rate" "learning_rate" (by decide) argv asgn hscan h2)
      (by rfl)
  · exact buildNS_default "model" taskSpecs asgn r _ hbuild
      (scan_no_assign "--model" "model" (by decide) argv asgn hscan h3)
      (by rfl)
  · exact buildNS_default "ksize1" taskSpecs asgn r _ hbuild
      (scan_no_assign "--ksize1" "ksize1" (by decide) argv asgn hscan h4)
      (by rfl)
  · exact buildNS_default "ksize2" taskSpecs asgn r _ hbuild
      (scan_no_assign "--ksize2" "ksize2" (by decide) argv asgn hscan h5)
      (by rfl)
  · exact buildNS_default "nfil1" taskSpecs asgn r _ hbuild
      (scan_no_assign "--nfil1" "nfil1" (by decide) argv asgn hscan h6)
      (by rfl)
  · exact buildNS_default "nfil2" taskSpecs asgn r _ hbuild
      (scan_no_assign "--nfil2" "nfil2" (by decide) argv asgn hscan h7)
      (by rfl)
  · exact buildNS_default "dprob" taskSpecs asgn r _ hbuild
      (scan_no_assign "--dprob" "dprob" (by decide) argv asgn hscan h8)
      (by rfl)
  · exact buildNS_default "batch_norm" taskSpecs asgn r _ hbuild
      (scan_no_assign "--batch_norm" "batch_norm" (by decide) argv asgn hscan h9)
      (by rfl)

/-- Witness for C6: a command line supplying only the required `--output_dir` parses,
and every other flag's entry holds its documented default. -/
theorem c6_omitted_flags_defaults_witness :
    parseArgs ["--output_dir", "gs://out"] =
      .ok [("train_batch_size", ArgValue.vint 100), ("learning_rate", ArgValue.vfloat 0.01),
           ("train_steps", ArgValue.vint 0), ("output_dir", ArgValue.vstr "gs://out"),
           ("model", ArgValue.vstr "linear"), ("job_dir", ArgValue.vstr "junk"),
           ("ksize1", ArgValue.vint 5), ("ksize2", ArgValue.vint 5),
           ("nfil1", ArgValue.vint 10), ("nfil2", ArgValue.vint 20),
           ("dprob", ArgValue.vfloat 0.25), ("batch_norm", ArgValue.vbool false)] ∧
    ([("train_batch_size", ArgValue.vint 100), ("learning_rate", ArgValue.vfloat 0.01),
      ("train_steps", ArgValue.vint 0), ("output_dir", ArgValue.vstr "gs://out"),
      ("model", ArgValue.vstr "linear"), ("job_dir", ArgValue.vstr "junk"),
      ("ksize1", ArgValue.vint 5), ("ksize2", ArgValue.vint 5),
      ("nfil1", ArgValue.vint 10), ("nfil2", ArgValue.vint 20),
      ("dprob", ArgValue.vfloat 0.25), ("batch_norm", ArgValue.vbool false)].lookup
        "train_batch_size" = some (.vint 100)) ∧
    ([("train_batch_size", ArgValue.vint 100), ("learning_rate", ArgValue.vfloat 0.01),
      ("train_steps", ArgValue.vint 0), ("output_dir", ArgValue.vstr "gs://out"),
      ("model", ArgValue.vstr "linear"), ("job_dir", ArgValue.vstr "junk"),
      ("ksize1", ArgValue.vint 5), ("ksize2", ArgValue.vint 5),
      ("nfil1", ArgValue.vint 10), ("nfil2", ArgValue.vint 20),
      ("dprob", ArgValue.vfloat 0.25), ("batch_norm", ArgValue.vbool false)].lookup
        "dprob" = some (.vfloat 0.25)) :=
  ⟨rfl,
    (c6_omitted_flags_defaults ["--output_dir", "gs://out"] _ rfl
      (by decide) (by decide) (by decide) (by decide) (by decide)
      (by decide) (by decide) (by decide) (by decide)).1,
    (c6_omitted_flags_defaults ["--output_dir", "gs://out"] _ rfl
      (by decide) (by decide) (by decide) (by decide) (by decide)
      (by decide) (by decide) (by decide) (by decide)).2.2.2.2.2.2.2.1⟩

/-- C7: every flag other than `--output_dir` may be omitted (a command line holding only
`--output_dir` parses successfully), while omitting `--output_dir` makes argparse fail
before any training work: no namespace is produced and the process exit status is the
non-zero argparse status. -/
theorem c7_output_dir_required (argv : List String) (d : String)
    (hmem : "--output_dir" ∉ argv) :
    (parseArgs argv).isOk = false ∧
    (∀ e, parseArgs argv = .error e → e.exitCode ≠ 0) ∧
    (parseArgs ["--output_dir", d]).isOk = true := by
  refine ⟨?_, ?_, ?_⟩
  · cases hscan : scanArgs taskSpecs argv with
    | error e =>
      unfold parseArgs
      rw [hscan]
      rfl
    | ok asgn =>
      unfold parseArgs
      rw [hscan]
      have hnone : lastAssign asgn "output_dir" = none :=
        scan_no_assign "--output_dir" "output_dir" (by decide) argv asgn hscan hmem
      obtain ⟨e, herr⟩ := buildNS_missing_required taskSpecs asgn
        ⟨"--output_dir", "output_dir", true, .vnone, .str⟩ (by decide) rfl hnone
      dsimp only []
      rw [herr]
      rfl
  · intro e _
    simp [ParseError.exitCode]
  · rfl

/-- Witness for C7: the empty command line lacks `--output_dir` and fails to parse,
while `--output_dir` alone parses. -/
theorem c7_output_dir_required_witness :
    ("--output_dir" ∉ ([] : List String)) ∧
    ((parseArgs []).isOk = false ∧
      (∀ e, parseArgs [] = .error e → e.exitCode ≠ 0) ∧
      (parseArgs ["--output_dir", "gs://out"]).isOk = true) :=
  ⟨by decide, c7_output_dir_required [] "gs://out" (by decide)⟩

/-- C4: for every successfully processed command line, the hyperparameter record passed
downstream to the estimator contains neither a `job_dir` key nor a `job-dir` key. -/
theorem c4_no_job_dir_downstream (argv : List String)
    (tfConfig : Option (List (String × Json))) (od : String)
    (hp : List (String × ArgValue))
    (hok : mainPipeline argv tfConfig = .ok (od, hp)) :
    ∀ p ∈ hp, p.1 ≠ "job_dir" ∧ p.1 ≠ "job-dir" := by
  intro p hpmem
  unfold mainPipeline at hok
  cases hpa : parseArgs argv with
  | error e => rw [hpa] at hok; cases hok
  | ok args =>
    rw [hpa] at hok
    dsimp only [] at hok
    cases hod : ((args.filter (fun p => p.1 != "job_dir")).filter
        (fun p => p.1 != "job-dir")).lookup "output_dir" with
    | none => rw [hod] at hok; cases hok
    | some odv =>
      rw [hod] at hok
      cases odv with
      | vstr ods =>
        dsimp only [] at hok
        cases hcod : computeOutputDir ods tfConfig with
        | none => rw [hcod] at hok; cases hok
        | some outDir =>
          rw [hcod] at hok
          dsimp only [] at hok
          cases hguard : applyStepsGuard (((args.filter (fun p => p.1 != "job_dir")).filter
              (fun p => p.1 != "job-dir")).filter (fun p => p.1 != "output_dir")) with
          | error e => rw [hguard] at hok; cases hok
          | ok hp2 =>
            rw [hguard] at hok
            cases hok
            obtain ⟨q, hq, hpq⟩ := applyStepsGuard_keys _ _ hguard p hpmem
            have hq1 := List.mem_filter.mp hq
            have hq2 := List.mem_filter.mp hq1.1
            have hq3 := List.mem_filter.mp hq2.1
            exact ⟨by rw [hpq]; exact bne_iff_ne.mp hq3.2,
                   by rw [hpq]; exact bne_iff_ne.mp hq2.2⟩
      | vint i => cases hok
      | vfloat q => cases hok
      | vbool b => cases hok
      | vnone => cases hok

/-- Witness for C4: the concrete run with only `--output_dir out` produces a
downstream record free of `job_dir` and `job-dir` keys. -/
theorem c4_no_job_dir_downstream_witness :
    mainPipeline ["--output_dir", "out"] none =
      .ok ("out/",
        [("train_batch_size", ArgValue.vint 100), ("learning_rate", ArgValue.vfloat 0.01),
         ("train_steps", ArgValue.vint 51200), ("model", ArgValue.vstr "linear"),
         ("ksize1", ArgValue.vint 5), ("ksize2", ArgValue.vint 5),
         ("nfil1", ArgValue.vint 10), ("nfil2", ArgValue.vint 20),
         ("dprob", ArgValue.vfloat 0.25), ("batch_norm", ArgValue.vbool false)]) ∧
    ∀ p ∈ [("train_batch_size", ArgValue.vint 100), ("learning_rate", ArgValue.vfloat 0.01),
         ("train_steps", ArgValue.vint 51200), ("model", ArgValue.vstr "linear"),
         ("ksize1", ArgValue.vint 5), ("ksize2", ArgValue.vint 5),
         ("nfil1", ArgValue.vint 10), ("nfil2", ArgValue.vint 20),
         ("dprob", ArgValue.vfloat 0.25), ("batch_norm", ArgValue.vbool false)],
      p.1 ≠ "job_dir" ∧ p.1 ≠ "job-dir" :=
  ⟨rfl, c4_no_job_dir_downstream ["--output_dir", "out"] none "out/" _ rfl⟩

/-- C5: `image_classifier` resolves `<model>_model` in the module, applies it to the
image feature to get `(ylogits, nclasses)`, and in TRAIN and EVAL modes wires the loss
as `reduce_mean(softmax_cross_entropy_with_logits(ylogits, one_hot(labels, nclasses)))`
and an `accuracy` metric of the predicted classes against the labels. -/
theorem c5_model_dispatch_loss_metrics (module : List (String × ModelFn))
    (features : List (String × Tensor)) (labels : Tensor) (mode : String)
    (params : List (String × ArgValue)) (m : String) (mf : ModelFn) (img : Tensor)
    (lr : ArgValue)
    (hm : params.lookup "model" = some (.vstr m))
    (hres : module.lookup (m ++ "_model") = some mf)
    (himg : features.lookup "image" = some img)
    (hlr : params.lookup "learning_rate" = some lr)
    (hmode : mode = ModeKeys.TRAIN ∨ mode = ModeKeys.EVAL) :
    ∃ spec, image_classifier module features labels mode params = .ok spec ∧
      spec.loss = some (Tensor.reduceMean (Tensor.softmaxCrossEntropyWithLogits
        (mf img mode params).1 (Tensor.oneHot labels (mf img mode params).2))) ∧
      spec.eval_metric_ops = some [("accuracy", Tensor.accuracy
        (Tensor.cast (Tensor.argmax (Tensor.softmax (mf img mode params).1) 1)
          DType.uint8) labels)] := by
  unfold image_classifier
  rw [hm]
  dsimp only [pyStr]
  rw [hres]
  dsimp only []
  rw [himg]
  dsimp only []
  rcases hmode with hmode | hmode
  · subst hmode
    rw [if_pos (Or.inl rfl), if_pos rfl, hlr]
    exact ⟨_, rfl, rfl, rfl⟩
  · subst hmode
    rw [if_pos (Or.inr rfl), if_neg (by decide : ¬ ModeKeys.EVAL = ModeKeys.TRAIN)]
    exact ⟨_, rfl, rfl, rfl⟩

/-- Witness for C5: concrete evaluation in EVAL mode against the stand-in module. -/
theorem c5_model_dispatch_loss_metrics_witness :
    ([("model", ArgValue.vstr "linear"), ("learning_rate", ArgValue.vfloat 0.01)].lookup
        "model" = some (ArgValue.vstr "linear")) ∧
    (demoModule.lookup ("linear" ++ "_model") = some demoModelFn) ∧
    ([("image", Tensor.opaqueT "img")].lookup "image" = some (Tensor.opaqueT "img")) ∧
    ([("model", ArgValue.vstr "linear"), ("learning_rate", ArgValue.vfloat 0.01)].lookup
        "learning_rate" = some (ArgValue.vfloat 0.01)) ∧
    (ModeKeys.EVAL = ModeKeys.TRAIN ∨ ModeKeys.EVAL = ModeKeys.EVAL) ∧
    ∃ spec, image_classifier demoModule [("image", Tensor.opaqueT "img")]
        (Tensor.opaqueT "labels") ModeKeys.EVAL
        [("model", ArgValue.vstr "linear"), ("learning_rate", ArgValue.vfloat 0.01)] =
        .ok spec ∧
      spec.loss = some (Tensor.reduceMean (Tensor.softmaxCrossEntropyWithLogits
        (Tensor.opaqueT "logits") (Tensor.oneHot (Tensor.opaqueT "labels") 10))) ∧
      spec.eval_metric_ops = some [("accuracy", Tensor.accuracy
        (Tensor.cast (Tensor.argmax (Tensor.softmax (Tensor.opaqueT "logits")) 1)
          DType.uint8) (Tensor.opaqueT "labels"))] :=
  ⟨rfl, rfl, rfl, rfl, Or.inr rfl,
    c5_model_dispatch_loss_metrics demoModule [("image", Tensor.opaqueT "img")]
      (Tensor.opaqueT "labels") ModeKeys.EVAL
      [("model", ArgValue.vstr "linear"), ("learning_rate", ArgValue.vfloat 0.01)]
      "linear" demoModelFn (Tensor.opaqueT "img") (ArgValue.vfloat 0.01)
      rfl rfl rfl rfl (Or.inr rfl)⟩

/-- C10: in every mode the returned EstimatorSpec carries the probabilities/classes
predictions and the `classes` export output; loss and the eval metrics are present
exactly in TRAIN and EVAL mode, a train op exactly in TRAIN mode, and in any other
mode loss, train op and eval metrics are all absent. -/
theorem c10_estimator_spec_shape (module : List (String × ModelFn))
    (features : List (String × Tensor)) (labels : Tensor) (mode : String)
    (params : List (String × ArgValue)) (m : String) (mf : ModelFn) (img : Tensor)
    (lr : ArgValue)
    (hm : params.lookup "model" = some (.vstr m))
    (hres : module.lookup (m ++ "_model") = some mf)
    (himg : features.lookup "image" = some img)
    (hlr : params.lookup "learning_rate" = some lr) :
    ∃ spec, image_classifier module features labels mode params = .ok spec ∧
      spec.predictions =
        [("probabilities", Tensor.softmax (mf img mode params).1),
         ("classes", Tensor.cast (Tensor.argmax (Tensor.softmax (mf img mode params).1) 1)
            DType.uint8)] ∧
      spec.export_outputs =
        [("classes", PredictOutput.mk
          [("probabilities", Tensor.softmax (mf img mode params).1),
           ("classes", Tensor.cast (Tensor.argmax (Tensor.softmax (mf img mode params).1) 1)
              DType.uint8)])] ∧
      (spec.loss.isSome ↔ (mode = ModeKeys.TRAIN ∨ mode = ModeKeys.EVAL)) ∧
      (spec.eval_metric_ops.isSome ↔ (mode = ModeKeys.TRAIN ∨ mode = ModeKeys.EVAL)) ∧
      (spec.train_op.isSome ↔ mode = ModeKeys.TRAIN) ∧
      (mode ≠ ModeKeys.TRAIN → mode ≠ ModeKeys.EVAL →
        spec.loss = none ∧ spec.train_op = none ∧ spec.eval_metric_ops = none) := by
  unfold image_classifier
  rw [hm]
  dsimp only [pyStr]
  rw [hres]
  dsimp only []
  rw [himg]
  dsimp only []
  by_cases h1 : mode = ModeKeys.TRAIN
  · rw [if_pos (Or.inl h1), if_pos h1, hlr]
    refine ⟨_, rfl, rfl, rfl, ?_, ?_, ?_, ?_⟩
    · simp [h1]
    · simp [h1]
    · simp [h1]
    · intro hc; exact absurd h1 hc
  · by_cases h2 : mode = ModeKeys.EVAL
    · rw [if_pos (Or.inr h2), if_neg h1]
      refine ⟨_, rfl, rfl, rfl, ?_, ?_, ?_, ?_⟩
      · simp [h2]
      · simp [h2]
      · simp [h1]
      · intro _ hc; exact absurd h2 hc
    · rw [if_neg (by tauto : ¬(mode = ModeKeys.TRAIN ∨ mode = ModeKeys.EVAL))]
      refine ⟨_, rfl, rfl, rfl, ?_, ?_, ?_, ?_⟩
      · simp [h1, h2]
      · simp [h1, h2]
      · simp [h1]
      · intro _ _; exact ⟨rfl, rfl, rfl⟩

/-- Witness for C10: concrete evaluation in PREDICT mode (`'infer'`): predictions and
export output present, loss, train op and eval metrics all absent. -/
theorem c10_estimator_spec_shape_witness :
    ([("model", ArgValue.vstr "linear"), ("learning_rate", ArgValue.vfloat 0.01)].lookup
        "model" = some (ArgValue.vstr "linear")) ∧
    (demoModule.lookup ("linear" ++ "_model") = some demoModelFn) ∧
    ([("image", Tensor.opaqueT "img")].lookup "image" = some (Tensor.opaqueT "img")) ∧
    ([("model", ArgValue.vstr "linear"), ("learning_rate", ArgValue.vfloat 0.01)].lookup
        "learning_rate" = some (ArgValue.vfloat 0.01)) ∧
    ∃ spec, image_classifier demoModule [("image", Tensor.opaqueT "img")]
        (Tensor.opaqueT "labels") ModeKeys.PREDICT
        [("model", ArgValue.vstr "linear"), ("learning_rate", ArgValue.vfloat 0.01)] =
        .ok spec ∧
      spec.predictions =
        [("probabilities", Tensor.softmax (Tensor.opaqueT "logits")),
         ("classes", Tensor.cast (Tensor.argmax (Tensor.softmax (Tensor.opaqueT "logits")) 1)
            DType.uint8)] ∧
      spec.export_outputs =
        [("classes", PredictOutput.mk
          [("probabilities", Tensor.softmax (Tensor.opaqueT "logits")),
           ("classes", Tensor.cast
              (Tensor.argmax (Tensor.softmax (Tensor.opaqueT "logits")) 1) DType.uint8)])] ∧
      (spec.loss.isSome ↔ (ModeKeys.PREDICT = ModeKeys.TRAIN ∨
        ModeKeys.PREDICT = ModeKeys.EVAL)) ∧
      (spec.eval_metric_ops.isSome ↔ (ModeKeys.PREDICT = ModeKeys.TRAIN ∨
        ModeKeys.PREDICT = ModeKeys.EVAL)) ∧
      (spec.train_op.isSome ↔ ModeKeys.PREDICT = ModeKeys.TRAIN) ∧
      (ModeKeys.PREDICT ≠ ModeKeys.TRAIN → ModeKeys.PREDICT ≠ ModeKeys.EVAL →
        spec.loss = none ∧ spec.train_op = none ∧ spec.eval_metric_ops = none) :=
  ⟨rfl, rfl, rfl, rfl,
    c10_estimator_spec_shape demoModule [("image", Tensor.opaqueT "img")]
      (Tensor.opaqueT "labels") ModeKeys.PREDICT
      [("model", ArgValue.vstr "linear"), ("learning_rate", ArgValue.vfloat 0.01)]
      "linear" demoModelFn (Tensor.opaqueT "img") (ArgValue.vfloat 0.01)
      rfl rfl rfl rfl⟩
